import Mathlib

/-!
# Verification of a byte-oriented framing protocol with ARQ retransmission

Shallow embedding of the two C source files of the repository:

* `src/t3/atividade_entrega_fms_function_pointers.c` — an incremental frame
  parser implemented as a function-pointer state machine, plus the frame
  codec (`protocol_create_message`, `protocol_calculate_checksum`).
* `src/t4/atividade_entrega_fms_protothreads.c` — a protothread-based
  sender/receiver pair over a simulated channel with a logical-clock timer.

Modelling conventions:

* `uint8_t` values are `Nat` with explicit `% 256` exactly where the C
  performs a narrowing store or increment; `uint32_t` time arithmetic is
  `Nat` with explicit `% 2^32`.
* A C byte array is a `List Nat` (for buffers copied around) or a
  `Nat → Nat` map (for the in-place receive arrays); a pointer that may be
  `NULL` is an `Option`.
* A (pointer, count) pair passed to a function is modelled as the list of
  the `count` bytes it denotes, so `qtd`/`data_size` is the list length.
* Protothread local continuations (`pt->lc`) become explicit resume-label
  enumerations; one C call of a protothread function is one application of
  the corresponding Lean function, which runs until the thread returns
  (`PT_WAITING` / `PT_YIELDED` / `PT_EXITED` / `PT_ENDED`).  The internal
  control flow is driven by a fuel argument large enough for any single
  call (each internal step either consumes one byte of the bounded channel
  buffer or returns); the fuel-exhausted sentinel result `99` is not a
  value any C path produces.
-/

-- ========================================
-- Protocol constants (both files)
-- ========================================

def STX_BYTE : Nat := 0x02
def ETX_BYTE : Nat := 0x03
def ACK_BYTE : Nat := 0x06
def NACK_BYTE : Nat := 0x15
def MAX_DATA_SIZE : Nat := 256
def TIMEOUT_MS : Nat := 1000
def MAX_RETRIES : Nat := 3

def PROTOCOL_SUCCESS : Int := 0
def PROTOCOL_ERROR : Int := -1
/-- t3 return code `PROTOCOL_WAITING` (-2). -/
def PROTOCOL_WAITING : Int := -2
/-- t4 return code `PROTOCOL_TIMEOUT` (same numeric value -2 as t3's WAITING). -/
def PROTOCOL_TIMEOUT : Int := -2
def PROTOCOL_INVALID_PARAM : Int := -3

/-- Protothread return codes. -/
def PT_WAITING : Int := 0
def PT_YIELDED : Int := 1
def PT_EXITED : Int := 2
def PT_ENDED : Int := 3

-- ========================================
-- Shared codec (identical in both C files)
-- ========================================

/-- `protocol_calculate_checksum(dados, qtd)`: `uint8_t` running sum over the
`qtd` bytes (wrapping mod 256).  The `(dados, qtd)` pointer/count pair is the
list; the `NULL`/`qtd == 0` early return yields 0, which coincides with the
empty fold. -/
def protocol_calculate_checksum (dados : List Nat) : Nat :=
  dados.foldl (fun acc b => (acc + b) % 256) 0

/-- `protocol_create_message(dados, qtd, buffer, buffer_size)`.  Returns
(result, buffer after the call, `*buffer_size` after the call).  The `buffer`
argument is the destination byte array; the function writes indices
`0 .. 3+qtd` and leaves the rest untouched.  Note the C computes
`uint8_t msg_size = 5 + qtd` (mod 256) and reports that value back, although
it writes only `qtd + 4` bytes.  The non-NULL pointer checks are outside the
model (`dados`/`buffer`/`buffer_size` are values here); `qtd == 0` is
`dados.length = 0`. -/
def protocol_create_message (dados : List Nat) (buffer : List Nat)
    (buffer_size : Nat) : Int × List Nat × Nat :=
  if dados.length = 0 then (PROTOCOL_INVALID_PARAM, buffer, buffer_size)
  else
    let qtd := dados.length
    let checksum := protocol_calculate_checksum dados
    let msg_size := (5 + qtd) % 256
    if buffer_size < msg_size then (PROTOCOL_ERROR, buffer, buffer_size)
    else (PROTOCOL_SUCCESS,
          [STX_BYTE, qtd] ++ dados ++ [checksum, ETX_BYTE] ++ buffer.drop (4 + qtd),
          msg_size)

-- ========================================
-- t3: function-pointer state machine parser
-- ========================================

inductive ProtocolStates where
  | ST_STX
  | ST_QTD
  | ST_DATA
  | ST_CHK
  | ST_ETX
deriving DecidableEq, Repr

open ProtocolStates

/-- In-place write into a byte array modelled as `Nat → Nat`
(`a[i] = v`). -/
def setIdx (a : Nat → Nat) (i v : Nat) : Nat → Nat :=
  fun j => if j = i then v else a j

/-- `struct ProtocolHandler` of t3.  The `state_functions` table is not a
field: `protocol_init` always fills it with the five fixed state functions,
so `protocol_process_byte`'s indirect call is modelled as direct dispatch on
`current_state` (see `protocol_step`).  `dados` is the 256-byte receive
array; `qtd_dados`, `dados_count`, `checksum_recv`, `checksum_calc` are
`uint8_t`. -/
structure ProtocolHandler where
  current_state : ProtocolStates
  qtd_dados : Nat
  dados : Nat → Nat
  dados_count : Nat
  checksum_recv : Nat
  checksum_calc : Nat
  message_ready : Bool
  last_result : Int

/-- `state_wait_stx`. -/
def state_wait_stx (h : ProtocolHandler) (b : Nat) : ProtocolHandler × Int :=
  if b = STX_BYTE then
    ({ h with current_state := ST_QTD, dados_count := 0, checksum_calc := 0,
              message_ready := false }, PROTOCOL_WAITING)
  else
    (h, PROTOCOL_WAITING)

/-- `state_wait_qtd`. -/
def state_wait_qtd (h : ProtocolHandler) (b : Nat) : ProtocolHandler × Int :=
  if b > 0 then
    ({ h with qtd_dados := b, current_state := ST_DATA }, PROTOCOL_WAITING)
  else
    ({ h with current_state := ST_STX }, PROTOCOL_WAITING)

/-- `state_wait_data`: stores the byte, accumulates the checksum (mod 256),
increments the `uint8_t` counter (mod 256), and advances to `ST_CHK` once the
count reaches the declared quantity. -/
def state_wait_data (h : ProtocolHandler) (b : Nat) : ProtocolHandler × Int :=
  let h1 := { h with dados := setIdx h.dados h.dados_count b,
                     checksum_calc := (h.checksum_calc + b) % 256,
                     dados_count := (h.dados_count + 1) % 256 }
  if h1.dados_count ≥ h1.qtd_dados then
    ({ h1 with current_state := ST_CHK }, PROTOCOL_WAITING)
  else
    (h1, PROTOCOL_WAITING)

/-- `state_wait_chk`. -/
def state_wait_chk (h : ProtocolHandler) (b : Nat) : ProtocolHandler × Int :=
  ({ h with checksum_recv := b, current_state := ST_ETX }, PROTOCOL_WAITING)

/-- `state_wait_etx`. -/
def state_wait_etx (h : ProtocolHandler) (b : Nat) : ProtocolHandler × Int :=
  if b = ETX_BYTE ∧ h.checksum_calc = h.checksum_recv then
    ({ h with message_ready := true, current_state := ST_STX }, PROTOCOL_SUCCESS)
  else
    ({ h with current_state := ST_STX }, PROTOCOL_ERROR)

/-- `protocol_init`: the zeroed, freshly initialised handler. -/
def protocol_init : ProtocolHandler :=
  { current_state := ST_STX, qtd_dados := 0, dados := fun _ => 0,
    dados_count := 0, checksum_recv := 0, checksum_calc := 0,
    message_ready := false, last_result := PROTOCOL_WAITING }

/-- The body of `protocol_process_byte` for a non-NULL handler: dispatch
through the state-function table (filled by `protocol_init` with the five
functions above, hence never `NULL`) and record `last_result`. -/
def protocol_step (h : ProtocolHandler) (b : Nat) : ProtocolHandler × Int :=
  let r :=
    match h.current_state with
    | ST_STX => state_wait_stx h b
    | ST_QTD => state_wait_qtd h b
    | ST_DATA => state_wait_data h b
    | ST_CHK => state_wait_chk h b
    | ST_ETX => state_wait_etx h b
  ({ r.1 with last_result := r.2 }, r.2)

/-- `protocol_process_byte(handler, byte)`: `NULL` handler returns
`PROTOCOL_INVALID_PARAM` and touches nothing. -/
def protocol_process_byte : Option ProtocolHandler → Nat → Int × Option ProtocolHandler
  | none, _ => (PROTOCOL_INVALID_PARAM, none)
  | some h, b =>
    let r := protocol_step h b
    (r.2, some r.1)

/-- `protocol_message_ready(handler)`. -/
def protocol_message_ready : Option ProtocolHandler → Bool
  | none => false
  | some h => h.message_ready

/-- `protocol_get_data(handler)`: returns the data array (NULL for a NULL
handler). -/
def protocol_get_data : Option ProtocolHandler → Option (Nat → Nat)
  | none => none
  | some h => some h.dados

/-- `protocol_get_data_count(handler)`: returns `qtd_dados` (0 for NULL). -/
def protocol_get_data_count : Option ProtocolHandler → Nat
  | none => 0
  | some h => h.qtd_dados

/-- Feed a byte list through the parser, keeping the final handler. -/
def processBytes (h : ProtocolHandler) : List Nat → ProtocolHandler
  | [] => h
  | b :: bs => processBytes (protocol_step h b).1 bs

/-- Feed a byte list through the parser, collecting the per-byte return
codes of `protocol_process_byte`. -/
def processResults (h : ProtocolHandler) : List Nat → List Int
  | [] => []
  | b :: bs => (protocol_step h b).2 :: processResults (protocol_step h b).1 bs

/-- The first `n` bytes of the handler's receive array. -/
def handler_data (h : ProtocolHandler) (n : Nat) : List Nat :=
  (List.range n).map h.dados

-- ========================================
-- t4: timer, channel, protothread state
-- ========================================

/-- `timer_t` of t4: `start_time`/`timeout_ms` are `uint32_t`. -/
structure timer_t where
  start_time : Nat
  timeout_ms : Nat
  active : Bool

/-- `timer_set(timer, timeout_ms)` reads the global `system_time_ms`,
passed here as `now`. -/
def timer_set (now timeout_ms : Nat) : timer_t :=
  { start_time := now, timeout_ms := timeout_ms, active := true }

/-- `timer_expired(timer)`: inactive timers never expire; otherwise the
`uint32_t` wraparound difference `system_time_ms - start_time` is compared
with `timeout_ms`. -/
def timer_expired (now : Nat) (t : timer_t) : Bool :=
  if t.active = false then false
  else decide ((now + 2 ^ 32 - t.start_time) % 2 ^ 32 ≥ t.timeout_ms)

/-- `timer_stop(timer)`. -/
def timer_stop (t : timer_t) : timer_t :=
  { t with active := false }

/-- `comm_channel_t` of t4.  `rx_buffer` is the 266-byte array
(`MAX_DATA_SIZE + 10`); `rx_size`/`rx_pos` are `uint8_t`.  The `tx_buffer`
and `tx_size` fields of the C struct are never read or written by any code
path and are omitted. -/
structure comm_channel_t where
  rx_buffer : List Nat
  rx_size : Nat
  rx_pos : Nat
  tx_ready : Bool
  rx_ready : Bool
  ack_received : Bool
  ack_value : Nat
  simulate_loss : Bool

/-- `channel_reset()` / the zero-initialised static channel. -/
def channel_reset : comm_channel_t :=
  { rx_buffer := List.replicate (MAX_DATA_SIZE + 10) 0, rx_size := 0,
    rx_pos := 0, tx_ready := false, rx_ready := false, ack_received := false,
    ack_value := 0, simulate_loss := false }

/-- `channel_send(data, size)`: unless loss is simulated, copies `size` bytes
of `data` over the head of `rx_buffer` and rewinds the read position. -/
def channel_send (data : List Nat) (size : Nat) (ch : comm_channel_t) :
    comm_channel_t :=
  let ch1 :=
    if ch.simulate_loss then ch
    else { ch with rx_buffer := data.take size ++ ch.rx_buffer.drop size,
                   rx_size := size, rx_pos := 0, rx_ready := true }
  { ch1 with tx_ready := false }

/-- `channel_receive_byte(&byte)`: returns the byte (if any) and the updated
channel; `rx_pos` is a `uint8_t`. -/
def channel_receive_byte (ch : comm_channel_t) : Option Nat × comm_channel_t :=
  if ch.rx_ready = true ∧ ch.rx_pos < ch.rx_size then
    let b := ch.rx_buffer.getD ch.rx_pos 0
    let pos := (ch.rx_pos + 1) % 256
    (some b, { ch with rx_pos := pos,
                       rx_ready := if pos ≥ ch.rx_size then false else ch.rx_ready })
  else (none, ch)

/-- `channel_send_ack(ack_type)`. -/
def channel_send_ack (ack_type : Nat) (ch : comm_channel_t) : comm_channel_t :=
  { ch with ack_received := true, ack_value := ack_type }

/-- `channel_ack_received(&ack_type)`: consumes and returns the pending
acknowledgment, if any. -/
def channel_ack_received (ch : comm_channel_t) : Option Nat × comm_channel_t :=
  if ch.ack_received = true then (some ch.ack_value, { ch with ack_received := false })
  else (none, ch)

/-- Transmitter protothread resume points: `lc = 0` (function start, also
what `PT_INIT`/`PT_EXIT`/`PT_END` leave behind) and the single
`PT_WAIT_UNTIL` inside the retry loop. -/
inductive TxLC where
  | start
  | waitAck
deriving DecidableEq, Repr

/-- `transmitter_state_t`.  `data_size` is `data_to_send.length`;
`message_buffer` is the 266-byte array; `message_size` and `retry_count` are
`uint8_t`. -/
structure transmitter_state_t where
  lc : TxLC
  timer : timer_t
  data_to_send : List Nat
  message_buffer : List Nat
  message_size : Nat
  retry_count : Nat
  transmission_complete : Bool
  result : Int

/-- Internal control points of one `transmitter_thread` call: the `while`
loop's condition check, and the `PT_WAIT_UNTIL` condition/acknowledgment
decision. -/
inductive TxPhase where
  | whileCheck
  | waitCheck

/-- One call of `transmitter_thread` from a given internal control point.
Arguments: fuel, phase, state, channel, `system_time_ms`, the `static
uint8_t ack_value` local.  Returns the updated state, channel, static, and
the protothread return code.  Fuel `8` (used by `transmitter_thread`) covers
any single call: per call at most one pending acknowledgment can be consumed
and at most one armed-timer expiry observed, after which a freshly armed
`TIMEOUT_MS = 1000` timer blocks the wait again. -/
def tx_run : Nat → TxPhase → transmitter_state_t → comm_channel_t → Nat → Nat →
    transmitter_state_t × comm_channel_t × Nat × Int
  | 0, _, tx, ch, _, ackv => (tx, ch, ackv, 99)
  | Nat.succ fuel, TxPhase.whileCheck, tx, ch, now, ackv =>
    if tx.retry_count < MAX_RETRIES then
      -- channel_send(tx->message_buffer, tx->message_size); timer_set(...)
      let ch := channel_send tx.message_buffer tx.message_size ch
      let tx := { tx with timer := timer_set now TIMEOUT_MS, lc := TxLC.waitAck }
      tx_run fuel TxPhase.waitCheck tx ch now ackv
    else
      -- max retries reached: result = TIMEOUT, complete, PT_END (lc = 0)
      ({ tx with result := PROTOCOL_TIMEOUT, transmission_complete := true,
                 lc := TxLC.start }, ch, ackv, PT_ENDED)
  | Nat.succ fuel, TxPhase.waitCheck, tx, ch, now, ackv =>
    -- PT_WAIT_UNTIL(pt, channel_ack_received(&ack_value) || timer_expired(&tx->timer))
    match channel_ack_received ch with
    | (some v, ch) =>
      -- condition true via the (consumed) acknowledgment
      if timer_expired now tx.timer then
        -- timeout branch wins: retry, the acknowledgment is discarded
        tx_run fuel TxPhase.whileCheck
          { tx with retry_count := (tx.retry_count + 1) % 256 } ch now v
      else if v = ACK_BYTE then
        ({ tx with transmission_complete := true, result := PROTOCOL_SUCCESS,
                   lc := TxLC.start }, ch, v, PT_EXITED)
      else if v = NACK_BYTE then
        tx_run fuel TxPhase.whileCheck
          { tx with retry_count := (tx.retry_count + 1) % 256 } ch now v
      else
        -- neither ACK nor NACK: fall through to the loop condition
        tx_run fuel TxPhase.whileCheck tx ch now v
    | (none, ch) =>
      if timer_expired now tx.timer then
        tx_run fuel TxPhase.whileCheck
          { tx with retry_count := (tx.retry_count + 1) % 256 } ch now ackv
      else (tx, ch, ackv, PT_WAITING)

/-- One call of `transmitter_thread(tx)`.  From `lc = 0` it resets the retry
counter and completion flag, then builds the frame with
`tx->message_size = (uint8_t)sizeof(tx->message_buffer)`, i.e. the 266-byte
capacity truncated to `266 % 256 = 10`, and exits immediately if the build
fails. -/
def transmitter_thread (tx : transmitter_state_t) (ch : comm_channel_t)
    (now ackv : Nat) : transmitter_state_t × comm_channel_t × Nat × Int :=
  match tx.lc with
  | TxLC.start =>
    let tx := { tx with retry_count := 0, transmission_complete := false,
                        message_size := (MAX_DATA_SIZE + 10) % 256 }
    let r := protocol_create_message tx.data_to_send tx.message_buffer tx.message_size
    let tx := { tx with result := r.1, message_buffer := r.2.1, message_size := r.2.2 }
    if tx.result ≠ PROTOCOL_SUCCESS then
      ({ tx with lc := TxLC.start }, ch, ackv, PT_EXITED)
    else
      tx_run 8 TxPhase.whileCheck tx ch now ackv
  | TxLC.waitAck => tx_run 8 TxPhase.waitCheck tx ch now ackv

/-- Receiver parse states (the anonymous enum inside `receiver_state_t`). -/
inductive RxStateE where
  | RX_WAIT_STX
  | RX_WAIT_QTD
  | RX_WAIT_DATA
  | RX_WAIT_CHK
  | RX_WAIT_ETX
deriving DecidableEq, Repr

/-- Receiver protothread resume points: function start, the five
`PT_WAIT_UNTIL`s, and the `PT_YIELD`. -/
inductive RxLC where
  | start
  | wstx
  | wqtd
  | wdata
  | wchk
  | wetx
  | yielded
deriving DecidableEq, Repr

/-- `receiver_state_t`.  `rx_data` is the 256-byte array; `rx_count`,
`expected_size`, and the checksums are `uint8_t`. -/
structure receiver_state_t where
  lc : RxLC
  rx_data : Nat → Nat
  rx_count : Nat
  expected_size : Nat
  checksum_calc : Nat
  checksum_recv : Nat
  state : RxStateE
  message_received : Bool
  result : Int

/-- Internal control points of one `receiver_thread` call. -/
inductive RxPhase where
  | loopTop
  | waitStx
  | waitQtd
  | dataLoop
  | waitChk
  | waitEtx

/-- One call of `receiver_thread` from a given internal control point.
The `static uint8_t incoming_byte` local is always written by
`channel_receive_byte` before being read (the short-circuit `&&` never reads
a stale value), so it is not part of the state.  Fuel `600` (used by
`receiver_thread`) covers any single call: every internal step either
consumes one byte of the at-most-255-byte channel buffer or returns, with at
most two byte-free transitions in between. -/
def rx_run : Nat → RxPhase → receiver_state_t → comm_channel_t →
    receiver_state_t × comm_channel_t × Int
  | 0, _, rx, ch => (rx, ch, 99)
  | Nat.succ fuel, RxPhase.loopTop, rx, ch =>
    -- top of while(1): reset the per-frame fields, fall into the STX wait
    rx_run fuel RxPhase.waitStx
      { rx with state := RxStateE.RX_WAIT_STX, rx_count := 0, checksum_calc := 0,
                message_received := false, lc := RxLC.wstx } ch
  | Nat.succ fuel, RxPhase.waitStx, rx, ch =>
    -- PT_WAIT_UNTIL(channel_receive_byte(&b) && b == STX_BYTE)
    match channel_receive_byte ch with
    | (none, ch) => (rx, ch, PT_WAITING)
    | (some b, ch) =>
      if b = STX_BYTE then
        rx_run fuel RxPhase.waitQtd
          { rx with state := RxStateE.RX_WAIT_QTD, lc := RxLC.wqtd } ch
      else (rx, ch, PT_WAITING)
  | Nat.succ fuel, RxPhase.waitQtd, rx, ch =>
    match channel_receive_byte ch with
    | (none, ch) => (rx, ch, PT_WAITING)
    | (some b, ch) =>
      if b = 0 then
        -- invalid quantity: send NACK and restart (continue)
        rx_run fuel RxPhase.loopTop rx (channel_send_ack NACK_BYTE ch)
      else
        rx_run fuel RxPhase.dataLoop
          { rx with expected_size := b, state := RxStateE.RX_WAIT_DATA,
                    rx_count := 0, lc := RxLC.wdata } ch
  | Nat.succ fuel, RxPhase.dataLoop, rx, ch =>
    -- for (rx_count = 0; rx_count < expected_size; rx_count++)
    if rx.rx_count < rx.expected_size then
      match channel_receive_byte ch with
      | (none, ch) => (rx, ch, PT_WAITING)
      | (some b, ch) =>
        rx_run fuel RxPhase.dataLoop
          { rx with rx_data := setIdx rx.rx_data rx.rx_count b,
                    checksum_calc := (rx.checksum_calc + b) % 256,
                    rx_count := (rx.rx_count + 1) % 256 } ch
    else
      rx_run fuel RxPhase.waitChk
        { rx with state := RxStateE.RX_WAIT_CHK, lc := RxLC.wchk } ch
  | Nat.succ fuel, RxPhase.waitChk, rx, ch =>
    match channel_receive_byte ch with
    | (none, ch) => (rx, ch, PT_WAITING)
    | (some b, ch) =>
      rx_run fuel RxPhase.waitEtx
        { rx with checksum_recv := b, state := RxStateE.RX_WAIT_ETX,
                  lc := RxLC.wetx } ch
  | Nat.succ _fuel, RxPhase.waitEtx, rx, ch =>
    match channel_receive_byte ch with
    | (none, ch) => (rx, ch, PT_WAITING)
    | (some b, ch) =>
      if b = ETX_BYTE ∧ rx.checksum_calc = rx.checksum_recv then
        ({ rx with message_received := true, result := PROTOCOL_SUCCESS,
                   lc := RxLC.yielded }, channel_send_ack ACK_BYTE ch, PT_YIELDED)
      else
        ({ rx with result := PROTOCOL_ERROR, lc := RxLC.yielded },
         channel_send_ack NACK_BYTE ch, PT_YIELDED)

/-- Map a stored `lc` to the control point a call resumes at (`PT_YIELD`
resumes after the yield, i.e. back at the top of `while(1)`). -/
def rxResume : RxLC → RxPhase
  | RxLC.start => RxPhase.loopTop
  | RxLC.wstx => RxPhase.waitStx
  | RxLC.wqtd => RxPhase.waitQtd
  | RxLC.wdata => RxPhase.dataLoop
  | RxLC.wchk => RxPhase.waitChk
  | RxLC.wetx => RxPhase.waitEtx
  | RxLC.yielded => RxPhase.loopTop

/-- One call of `receiver_thread(rx)`. -/
def receiver_thread (rx : receiver_state_t) (ch : comm_channel_t) :
    receiver_state_t × comm_channel_t × Int :=
  rx_run 600 (rxResume rx.lc) rx ch

-- ========================================
-- t4: world state, scheduler and public API
-- ========================================

/-- The process-wide mutable state of t4: the simulated clock, the static
channel, the two static thread states, and the transmitter's `static
ack_value` local. -/
structure t4_world where
  system_time_ms : Nat
  channel : comm_channel_t
  tx : transmitter_state_t
  rx : receiver_state_t
  tx_ack_value : Nat

/-- The state after program start (all statics zero-initialised) followed by
`protothreads_init()` (PT_INIT both threads, `channel_reset`, time 0). -/
def protothreads_init : t4_world :=
  { system_time_ms := 0,
    channel := channel_reset,
    tx := { lc := TxLC.start, timer := { start_time := 0, timeout_ms := 0, active := false },
            data_to_send := [], message_buffer := List.replicate (MAX_DATA_SIZE + 10) 0,
            message_size := 0, retry_count := 0, transmission_complete := false,
            result := 0 },
    rx := { lc := RxLC.start, rx_data := fun _ => 0, rx_count := 0,
            expected_size := 0, checksum_calc := 0, checksum_recv := 0,
            state := RxStateE.RX_WAIT_STX, message_received := false, result := 0 },
    tx_ack_value := 0 }

/-- `protothreads_send_data(data, size)`; `size` is `data.length` (the NULL
check is outside the model). -/
def protothreads_send_data (data : List Nat) (w : t4_world) : t4_world × Int :=
  if data.length = 0 then (w, PROTOCOL_INVALID_PARAM)
  else
    let tx := { w.tx with
                 data_to_send := data, retry_count := 0,
                 transmission_complete := false, result := 0,
                 timer := timer_stop w.tx.timer, lc := TxLC.start }
    ({ w with tx := tx }, PROTOCOL_SUCCESS)

/-- `advance_time(ms)`: the `uint32_t` clock advances mod `2^32`. -/
def advance_time (ms : Nat) (w : t4_world) : t4_world :=
  { w with system_time_ms := (w.system_time_ms + ms) % 2 ^ 32 }

/-- `protothreads_schedule()`: one transmitter call, then one receiver
call. -/
def protothreads_schedule (w : t4_world) : t4_world :=
  let t := transmitter_thread w.tx w.channel w.system_time_ms w.tx_ack_value
  let w := { w with tx := t.1, channel := t.2.1, tx_ack_value := t.2.2.1 }
  let r := receiver_thread w.rx w.channel
  { w with rx := r.1, channel := r.2.1 }

/-- `n` scheduling turns, each followed by `advance_time ms` (the cadence the
t4 test harness uses). -/
def sched_turns (ms : Nat) : Nat → t4_world → t4_world
  | 0, w => w
  | Nat.succ n, w => sched_turns ms n (advance_time ms (protothreads_schedule w))

-- ========================================
-- Derived notions used by the statements
-- ========================================

/-- The bytes `protocol_create_message` writes into the buffer — the wire
frame proper, `qtd + 4` bytes at indices `0 .. 3+qtd`. -/
def created_frame (dados buffer : List Nat) (buffer_size : Nat) : List Nat :=
  (protocol_create_message dados buffer buffer_size).2.1.take (dados.length + 4)

-- ========================================
-- Helper lemmas: checksum and parser runs
-- ========================================

lemma foldl_mod_eq_sum_mod (p : List Nat) :
    ∀ acc, acc < 256 → p.foldl (fun a b => (a + b) % 256) acc = (acc + p.sum) % 256 := by
  induction p with
  | nil => intro acc h; simp [Nat.mod_eq_of_lt h]
  | cons b bs ih =>
    intro acc h
    have := ih ((acc + b) % 256) (Nat.mod_lt _ (by norm_num))
    simp only [List.foldl_cons, List.sum_cons, this, Nat.mod_add_mod]
    congr 1
    omega

lemma protocol_calculate_checksum_eq (p : List Nat) :
    protocol_calculate_checksum p = p.sum % 256 := by
  simpa [protocol_calculate_checksum] using foldl_mod_eq_sum_mod p 0 (by norm_num)

lemma processBytes_append (xs ys : List Nat) :
    ∀ h : ProtocolHandler,
      processBytes h (xs ++ ys) = processBytes (processBytes h xs) ys := by
  induction xs with
  | nil => intro h; rfl
  | cons b bs ih => intro h; simp [processBytes, ih]

lemma processResults_append (xs ys : List Nat) :
    ∀ h : ProtocolHandler,
      processResults h (xs ++ ys) =
        processResults h xs ++ processResults (processBytes h xs) ys := by
  induction xs with
  | nil => intro h; rfl
  | cons b bs ih => intro h; simp [processResults, processBytes, ih]

lemma step_stx_hit (h : ProtocolHandler) (hst : h.current_state = ST_STX) :
    protocol_step h STX_BYTE =
      ({ h with current_state := ST_QTD, dados_count := 0, checksum_calc := 0,
                message_ready := false, last_result := PROTOCOL_WAITING },
       PROTOCOL_WAITING) := by
  simp [protocol_step, state_wait_stx, hst]

lemma step_stx_miss (h : ProtocolHandler) (b : Nat) (hst : h.current_state = ST_STX)
    (hb : b ≠ STX_BYTE) :
    protocol_step h b = ({ h with last_result := PROTOCOL_WAITING }, PROTOCOL_WAITING) := by
  simp [protocol_step, state_wait_stx, hst, hb]

lemma step_qtd_pos (h : ProtocolHandler) (b : Nat) (hst : h.current_state = ST_QTD)
    (hb : 0 < b) :
    protocol_step h b =
      ({ h with qtd_dados := b, current_state := ST_DATA,
                last_result := PROTOCOL_WAITING }, PROTOCOL_WAITING) := by
  simp [protocol_step, state_wait_qtd, hst, hb]

lemma step_qtd_zero (h : ProtocolHandler) (hst : h.current_state = ST_QTD) :
    protocol_step h 0 =
      ({ h with current_state := ST_STX, last_result := PROTOCOL_WAITING },
       PROTOCOL_WAITING) := by
  simp [protocol_step, state_wait_qtd, hst]

lemma step_chk (h : ProtocolHandler) (c : Nat) (hst : h.current_state = ST_CHK) :
    protocol_step h c =
      ({ h with checksum_recv := c, current_state := ST_ETX,
                last_result := PROTOCOL_WAITING }, PROTOCOL_WAITING) := by
  simp [protocol_step, state_wait_chk, hst]

lemma step_etx_ok (h : ProtocolHandler) (hst : h.current_state = ST_ETX)
    (hchk : h.checksum_calc = h.checksum_recv) :
    protocol_step h ETX_BYTE =
      ({ h with message_ready := true, current_state := ST_STX,
                last_result := PROTOCOL_SUCCESS }, PROTOCOL_SUCCESS) := by
  simp [protocol_step, state_wait_etx, hst, hchk]

lemma step_data_mid (h : ProtocolHandler) (b : Nat) (hst : h.current_state = ST_DATA)
    (hlt : h.dados_count + 1 < h.qtd_dados) (hle : h.qtd_dados ≤ 255) :
    protocol_step h b =
      ({ h with dados := setIdx h.dados h.dados_count b,
                checksum_calc := (h.checksum_calc + b) % 256,
                dados_count := h.dados_count + 1,
                last_result := PROTOCOL_WAITING }, PROTOCOL_WAITING) := by
  have hmod : (h.dados_count + 1) % 256 = h.dados_count + 1 :=
    Nat.mod_eq_of_lt (by omega)
  have hcond : ¬ h.qtd_dados ≤ h.dados_count + 1 := by omega
  simp [protocol_step, state_wait_data, hst, hmod, hcond]

lemma step_data_last (h : ProtocolHandler) (b : Nat) (hst : h.current_state = ST_DATA)
    (heq : h.dados_count + 1 = h.qtd_dados) (hle : h.qtd_dados ≤ 255) :
    protocol_step h b =
      ({ h with dados := setIdx h.dados h.dados_count b,
                checksum_calc := (h.checksum_calc + b) % 256,
                dados_count := h.dados_count + 1,
                current_state := ST_CHK,
                last_result := PROTOCOL_WAITING }, PROTOCOL_WAITING) := by
  have hmod : (h.dados_count + 1) % 256 = h.dados_count + 1 :=
    Nat.mod_eq_of_lt (by omega)
  have hcond : h.qtd_dados ≤ h.dados_count + 1 := by omega
  simp [protocol_step, state_wait_data, hst, hmod, hcond]

lemma data_phase (p : List Nat) :
    ∀ h : ProtocolHandler, h.current_state = ST_DATA → p ≠ [] →
    h.qtd_dados = h.dados_count + p.length → h.qtd_dados ≤ 255 →
    (processBytes h p).current_state = ST_CHK ∧
    (processBytes h p).qtd_dados = h.qtd_dados ∧
    (processBytes h p).dados_count = h.qtd_dados ∧
    (processBytes h p).checksum_calc = (h.checksum_calc + p.sum) % 256 ∧
    (processBytes h p).message_ready = h.message_ready ∧
    (∀ i, i < h.dados_count → (processBytes h p).dados i = h.dados i) ∧
    (∀ i, i < p.length → (processBytes h p).dados (h.dados_count + i) = p.getD i 0) ∧
    processResults h p = List.replicate p.length PROTOCOL_WAITING := by
  induction p with
  | nil => intro h _ hne; exact absurd rfl hne
  | cons b bs ih =>
    intro h hst _ hq hle
    rcases bs with _ | ⟨c, cs⟩
    · -- final data byte: the counter reaches the declared quantity
      have heq : h.dados_count + 1 = h.qtd_dados := by simp at hq; omega
      have hstep := step_data_last h b hst heq hle
      refine ⟨?_, ?_, ?_, ?_, ?_, ?_, ?_, ?_⟩
      · simp [processBytes, hstep]
      · simp [processBytes, hstep]
      · simp [processBytes, hstep]; omega
      · simp [processBytes, hstep]
      · simp [processBytes, hstep]
      · intro i hi
        have hne : i ≠ h.dados_count := by omega
        simp [processBytes, hstep, setIdx, hne]
      · intro i hi
        have hz : i = 0 := by simpa using hi
        subst hz
        simp [processBytes, hstep, setIdx]
      · simp [processResults, hstep]
    · -- middle data byte: stay in ST_DATA and recurse
      have hlt : h.dados_count + 1 < h.qtd_dados := by simp at hq; omega
      have hstep := step_data_mid h b hst hlt hle
      have hq1 : ((protocol_step h b).1).qtd_dados =
          ((protocol_step h b).1).dados_count + (c :: cs).length := by
        simp [hstep]
        simp at hq
        omega
      have ih' := ih (protocol_step h b).1 (by simp [hstep, hst]) (by simp)
        hq1 (by simp [hstep]; omega)
      obtain ⟨i1, i2, i3, i4, i5, i6, i7, i8⟩ := ih'
      have hpb : processBytes h (b :: c :: cs) = processBytes (protocol_step h b).1 (c :: cs) := rfl
      refine ⟨?_, ?_, ?_, ?_, ?_, ?_, ?_, ?_⟩
      · rw [hpb]; exact i1
      · rw [hpb, i2]; simp [hstep]
      · rw [hpb, i3]; simp [hstep]
      · rw [hpb, i4]; simp only [hstep]; simp only [Nat.mod_add_mod]
        congr 1
        simp
        omega
      · rw [hpb, i5]; simp [hstep]
      · intro i hi
        rw [hpb]
        have hi' : i < ((protocol_step h b).1).dados_count := by simp [hstep]; omega
        rw [i6 i hi']
        have hne : i ≠ h.dados_count := by omega
        simp [hstep, setIdx, hne]
      · intro i hi
        rw [hpb]
        rcases i with _ | j
        · have h0 : h.dados_count < ((protocol_step h b).1).dados_count := by
            simp [hstep]
          simp only [Nat.add_zero]
          rw [i6 h.dados_count h0]
          simp [hstep, setIdx]
        · have hj : j < (c :: cs).length := by simpa using hi
          have hwr := i7 j hj
          have harith : h.dados_count + (j + 1) =
              ((protocol_step h b).1).dados_count + j := by simp [hstep]; omega
          rw [harith, hwr]
          simp
      · have h2 : (protocol_step h b).2 = PROTOCOL_WAITING := by rw [hstep]
        calc processResults h (b :: c :: cs)
            = (protocol_step h b).2 :: processResults (protocol_step h b).1 (c :: cs) := rfl
          _ = PROTOCOL_WAITING :: List.replicate (c :: cs).length PROTOCOL_WAITING := by
              rw [h2, i8]
          _ = List.replicate (b :: c :: cs).length PROTOCOL_WAITING := by
              simp [List.replicate_succ]

lemma count_replicate_int (n : Nat) (a b : Int) :
    (List.replicate n b).count a = if a = b then n else 0 := by
  induction n with
  | zero => simp
  | succ k ih =>
    rw [List.replicate_succ, List.count_cons, ih]
    by_cases hab : a = b
    · simp [hab]
    · simp [hab, Ne.symm hab]

/-- Parsing one well-formed frame from `ST_STX`: a `PROTOCOL_WAITING` for
every byte but the terminator, then `PROTOCOL_SUCCESS`, with the payload and
its length recorded in the handler. -/
lemma frame_parse (p : List Nat) (hne : p ≠ []) (hlen : p.length ≤ 255)
    (h : ProtocolHandler) (hst : h.current_state = ST_STX) :
    (processBytes h ([STX_BYTE, p.length] ++ p ++ [protocol_calculate_checksum p, ETX_BYTE])).current_state = ST_STX ∧
    (processBytes h ([STX_BYTE, p.length] ++ p ++ [protocol_calculate_checksum p, ETX_BYTE])).message_ready = true ∧
    (processBytes h ([STX_BYTE, p.length] ++ p ++ [protocol_calculate_checksum p, ETX_BYTE])).qtd_dados = p.length ∧
    (processBytes h ([STX_BYTE, p.length] ++ p ++ [protocol_calculate_checksum p, ETX_BYTE])).dados_count = p.length ∧
    (∀ i, i < p.length →
      (processBytes h ([STX_BYTE, p.length] ++ p ++ [protocol_calculate_checksum p, ETX_BYTE])).dados i = p.getD i 0) ∧
    processResults h ([STX_BYTE, p.length] ++ p ++ [protocol_calculate_checksum p, ETX_BYTE]) =
      List.replicate (p.length + 3) PROTOCOL_WAITING ++ [PROTOCOL_SUCCESS] := by
  have hpos : 0 < p.length := List.length_pos.mpr hne
  have h1 := step_stx_hit h hst
  set g1 := (protocol_step h STX_BYTE).1 with hg1
  have h2 := step_qtd_pos g1 p.length (by rw [hg1, h1]) hpos
  set g2 := (protocol_step g1 p.length).1 with hg2
  have hdp := data_phase p g2 (by rw [hg2, h2]) hne
    (by rw [hg2, h2]; simp [hg1, h1]) (by rw [hg2, h2]; simpa using hlen)
  obtain ⟨d1, d2, d3, d4, d5, d6, d7, d8⟩ := hdp
  set g3 := processBytes g2 p with hg3
  have h4 := step_chk g3 (protocol_calculate_checksum p) d1
  set g4 := (protocol_step g3 (protocol_calculate_checksum p)).1 with hg4
  have hcc2 : g2.checksum_calc = 0 := by rw [hg2, h2]; simp [hg1, h1]
  have hchk : g4.checksum_calc = g4.checksum_recv := by
    rw [hg4, h4]
    show g3.checksum_calc = protocol_calculate_checksum p
    rw [d4, hcc2, protocol_calculate_checksum_eq]
    simp
  have h5 := step_etx_ok g4 (by rw [hg4, h4]) hchk
  -- split the run into the header, the payload, and the trailer
  have hsplit : ([STX_BYTE, p.length] ++ p ++ [protocol_calculate_checksum p, ETX_BYTE] : List Nat) =
      STX_BYTE :: p.length :: (p ++ [protocol_calculate_checksum p, ETX_BYTE]) := by simp
  have hrun : processBytes h ([STX_BYTE, p.length] ++ p ++ [protocol_calculate_checksum p, ETX_BYTE]) =
      (protocol_step g4 ETX_BYTE).1 := by
    rw [hsplit]
    show processBytes (protocol_step g1 p.length).1 (p ++ [protocol_calculate_checksum p, ETX_BYTE]) = _
    rw [processBytes_append, ← hg2, ← hg3]
    show (protocol_step (protocol_step g3 (protocol_calculate_checksum p)).1 ETX_BYTE).1 = _
    rw [← hg4]
  have hcnt : g2.dados_count = 0 := by rw [hg2, h2]; simp [hg1, h1]
  have hqd : g2.qtd_dados = p.length := by rw [hg2, h2]
  refine ⟨?_, ?_, ?_, ?_, ?_, ?_⟩
  · rw [hrun, h5]
  · rw [hrun, h5]
  · rw [hrun, h5]
    show g4.qtd_dados = p.length
    rw [hg4, h4]
    simp
    rw [d2, hqd]
  · rw [hrun, h5]
    show g4.dados_count = p.length
    rw [hg4, h4]
    simp
    rw [d3, hqd]
  · intro i hi
    rw [hrun, h5]
    show g4.dados i = p.getD i 0
    rw [hg4, h4]
    simp
    have := d7 i hi
    rw [hcnt] at this
    simpa using this
  · rw [hsplit]
    show (protocol_step h STX_BYTE).2 ::
        processResults g1 (p.length :: (p ++ [protocol_calculate_checksum p, ETX_BYTE])) = _
    rw [h1]
    show PROTOCOL_WAITING :: (protocol_step g1 p.length).2 ::
        processResults g2 (p ++ [protocol_calculate_checksum p, ETX_BYTE]) = _
    rw [h2]
    simp only []
    rw [processResults_append, ← hg3, d8]
    show _ :: _ :: (List.replicate p.length PROTOCOL_WAITING ++
        ((protocol_step g3 (protocol_calculate_checksum p)).2 ::
          processResults g4 [ETX_BYTE])) = _
    rw [h4]
    show _ :: _ :: (List.replicate p.length PROTOCOL_WAITING ++
        (PROTOCOL_WAITING :: ((protocol_step g4 ETX_BYTE).2 :: processResults (protocol_step g4 ETX_BYTE).1 []))) = _
    rw [h5]
    show PROTOCOL_WAITING :: PROTOCOL_WAITING :: (List.replicate p.length PROTOCOL_WAITING ++
        (PROTOCOL_WAITING :: [PROTOCOL_SUCCESS])) = _
    have hrep : List.replicate (p.length + 3) PROTOCOL_WAITING =
        PROTOCOL_WAITING :: PROTOCOL_WAITING :: (List.replicate p.length PROTOCOL_WAITING ++ [PROTOCOL_WAITING]) := by
      rw [show p.length + 3 = (p.length + 1) + 1 + 1 by omega]
      rw [List.replicate_succ, List.replicate_succ, List.replicate_succ']
    rw [hrep]
    simp

/-- Bytes other than the start marker leave a handler that is waiting for a
start marker (with `last_result` already `PROTOCOL_WAITING`) completely
unchanged. -/
lemma noise_absorbed (noise : List Nat) :
    ∀ h : ProtocolHandler, h.current_state = ST_STX →
    h.last_result = PROTOCOL_WAITING →
    (∀ b ∈ noise, b ≠ STX_BYTE) →
    processBytes h noise = h ∧
    processResults h noise = List.replicate noise.length PROTOCOL_WAITING := by
  induction noise with
  | nil => intro h _ _ _; exact ⟨rfl, rfl⟩
  | cons b bs ih =>
    intro h hst hlr hns
    have hb : b ≠ STX_BYTE := hns b (by simp)
    have hstep := step_stx_miss h b hst hb
    have hsame : (protocol_step h b).1 = h := by
      rw [hstep]
      rw [← hlr]
    have hr2 : (protocol_step h b).2 = PROTOCOL_WAITING := by rw [hstep]
    have ih' := ih (protocol_step h b).1 (by rw [hsame]; exact hst)
      (by rw [hsame]; exact hlr) (fun x hx => hns x (by simp [hx]))
    refine ⟨?_, ?_⟩
    · show processBytes (protocol_step h b).1 bs = h
      rw [ih'.1, hsame]
    · show (protocol_step h b).2 :: processResults (protocol_step h b).1 bs = _
      rw [ih'.2, hr2]
      simp [List.replicate_succ]

/-- The reachability invariant behind the in-bounds data write: the counter
is freshly zeroed when the length byte is awaited, fewer bytes have been
stored than were declared whenever the parser sits in `ST_DATA`, and the
declared quantity fits in a byte. -/
def parserInv (h : ProtocolHandler) : Prop :=
  (h.current_state = ST_QTD → h.dados_count = 0) ∧
  (h.current_state = ST_DATA → h.dados_count < h.qtd_dados) ∧
  h.qtd_dados ≤ 255

lemma parserInv_step (h : ProtocolHandler) (b : Nat) (hb : b < 256)
    (hinv : parserInv h) : parserInv (protocol_step h b).1 := by
  obtain ⟨hqtd0, hdata, hqtd⟩ := hinv
  rcases hcs : h.current_state with _ | _ | _ | _ | _
  · -- ST_STX
    by_cases hsx : b = STX_BYTE
    · subst hsx
      rw [step_stx_hit h hcs]
      refine ⟨fun _ => rfl, fun hx => ?_, ?_⟩
      · simp at hx
      · simpa using hqtd
    · rw [step_stx_miss h b hcs hsx]
      refine ⟨fun hx => ?_, fun hx => ?_, by simpa using hqtd⟩
      · simp [hcs] at hx
      · simp [hcs] at hx
  · -- ST_QTD
    by_cases hbp : 0 < b
    · rw [step_qtd_pos h b hcs hbp]
      have h0 := hqtd0 hcs
      refine ⟨fun hx => ?_, fun _ => ?_, ?_⟩
      · simp at hx
      · simp
        omega
      · simp
        omega
    · have hb0 : b = 0 := by omega
      subst hb0
      rw [step_qtd_zero h hcs]
      refine ⟨fun hx => ?_, fun hx => ?_, by simpa using hqtd⟩
      · simp at hx
      · simp at hx
  · -- ST_DATA
    have hlt := hdata hcs
    by_cases hnext : h.qtd_dados ≤ (h.dados_count + 1) % 256
    · have hmod : (h.dados_count + 1) % 256 = h.dados_count + 1 :=
        Nat.mod_eq_of_lt (by omega)
      have hstep := step_data_last h b hcs (by omega) hqtd
      rw [hstep]
      refine ⟨fun hx => ?_, fun hx => ?_, by simpa using hqtd⟩
      · simp at hx
      · simp at hx
    · have hmod : (h.dados_count + 1) % 256 = h.dados_count + 1 :=
        Nat.mod_eq_of_lt (by omega)
      have hstep := step_data_mid h b hcs (by omega) hqtd
      rw [hstep]
      refine ⟨fun hx => ?_, fun _ => ?_, by simpa using hqtd⟩
      · simp [hcs] at hx
      · simp
        omega
  · -- ST_CHK
    rw [step_chk h b hcs]
    refine ⟨fun hx => ?_, fun hx => ?_, by simpa using hqtd⟩
    · simp at hx
    · simp at hx
  · -- ST_ETX
    by_cases hok : b = ETX_BYTE ∧ h.checksum_calc = h.checksum_recv
    · obtain ⟨hb3, hcc⟩ := hok
      subst hb3
      rw [step_etx_ok h hcs hcc]
      refine ⟨fun hx => ?_, fun hx => ?_, by simpa using hqtd⟩
      · simp at hx
      · simp at hx
    · have hstep : protocol_step h b =
          ({ h with current_state := ST_STX, last_result := PROTOCOL_ERROR },
           PROTOCOL_ERROR) := by
        simp [protocol_step, state_wait_etx, hcs, hok]
      rw [hstep]
      refine ⟨fun hx => ?_, fun hx => ?_, by simpa using hqtd⟩
      · simp at hx
      · simp at hx

lemma parserInv_run (bs : List Nat) :
    ∀ h : ProtocolHandler, (∀ b ∈ bs, b < 256) → parserInv h →
    parserInv (processBytes h bs) := by
  induction bs with
  | nil => intro h _ hinv; exact hinv
  | cons b tl ih =>
    intro h hb hinv
    exact ih (protocol_step h b).1 (fun x hx => hb x (by simp [hx]))
      (parserInv_step h b (hb b (by simp)) hinv)

/-- Success characterisation of `protocol_create_message`: what the frame,
buffer and reported size look like on the success path. -/
lemma create_message_ok (p buf : List Nat) (bsz : Nat) (hne : p ≠ [])
    (hok : (protocol_create_message p buf bsz).1 = PROTOCOL_SUCCESS) :
    protocol_create_message p buf bsz =
      (PROTOCOL_SUCCESS,
       [STX_BYTE, p.length] ++ p ++ [protocol_calculate_checksum p, ETX_BYTE] ++
         buf.drop (4 + p.length),
       (5 + p.length) % 256) := by
  have hlen : ¬ p.length = 0 := by simpa using hne
  by_cases hbs : bsz < (5 + p.length) % 256
  · exfalso
    rw [protocol_create_message] at hok
    simp [hlen, hbs] at hok
    exact absurd hok (by decide)
  · rw [protocol_create_message]
    simp [hlen, hbs]

lemma created_frame_ok (p buf : List Nat) (bsz : Nat) (hne : p ≠ [])
    (hok : (protocol_create_message p buf bsz).1 = PROTOCOL_SUCCESS) :
    created_frame p buf bsz =
      [STX_BYTE, p.length] ++ p ++ [protocol_calculate_checksum p, ETX_BYTE] := by
  rw [created_frame, create_message_ok p buf bsz hne hok]
  show ([STX_BYTE, p.length] ++ p ++ [protocol_calculate_checksum p, ETX_BYTE] ++
      buf.drop (4 + p.length)).take (p.length + 4) = _
  have hlen4 : ([STX_BYTE, p.length] ++ p ++ [protocol_calculate_checksum p, ETX_BYTE]).length
      = p.length + 4 := by simp
  rw [← hlen4]
  exact List.take_left _ _

-- ========================================
-- Claims about the t3 parser and codec
-- ========================================

/-- C1: for every payload of length 1..=255, encoding it with
`protocol_create_message` into a buffer of sufficient size (i.e. so that the
call succeeds) and feeding the resulting frame's bytes one at a time into a
freshly initialised parser yields exactly one `PROTOCOL_SUCCESS` outcome,
leaves `message_ready` set, and reconstructs exactly the original payload
(both the data bytes and the reported count). -/
theorem C1_roundtrip (p buf : List Nat) (bsz : Nat)
    (h1 : 1 ≤ p.length) (h2 : p.length ≤ 255) (h3 : ∀ b ∈ p, b < 256)
    (hok : (protocol_create_message p buf bsz).1 = PROTOCOL_SUCCESS) :
    (processResults protocol_init (created_frame p buf bsz)).count PROTOCOL_SUCCESS = 1 ∧
    protocol_message_ready (some (processBytes protocol_init (created_frame p buf bsz))) = true ∧
    protocol_get_data_count (some (processBytes protocol_init (created_frame p buf bsz))) = p.length ∧
    handler_data (processBytes protocol_init (created_frame p buf bsz))
      (processBytes protocol_init (created_frame p buf bsz)).dados_count = p := by
  have hne : p ≠ [] := by
    intro hcon
    rw [hcon] at h1
    simp at h1
  have hframe := created_frame_ok p buf bsz hne hok
  obtain ⟨f1, f2, f3, f4, f5, f6⟩ := frame_parse p hne h2 protocol_init rfl
  rw [hframe]
  refine ⟨?_, ?_, ?_, ?_⟩
  · rw [f6, List.count_append, count_replicate_int]
    norm_num [PROTOCOL_SUCCESS, PROTOCOL_WAITING]
  · show (processBytes protocol_init
        ([STX_BYTE, p.length] ++ p ++ [protocol_calculate_checksum p, ETX_BYTE])).message_ready = true
    exact f2
  · show (processBytes protocol_init
        ([STX_BYTE, p.length] ++ p ++ [protocol_calculate_checksum p, ETX_BYTE])).qtd_dados = p.length
    exact f3
  · rw [handler_data, f4]
    apply List.ext_getElem
    · simp
    · intro i hi1 hi2
      simp only [List.getElem_map, List.getElem_range]
      rw [f5 i (by simpa using hi1)]
      exact List.getD_eq_getElem p 0 hi2

/-- Witness for C1 at the concrete payload `[0xAA]`. -/
theorem C1_roundtrip_witness :
    (1 ≤ ([0xAA] : List Nat).length ∧ ([0xAA] : List Nat).length ≤ 255 ∧
     (∀ b ∈ ([0xAA] : List Nat), b < 256) ∧
     (protocol_create_message [0xAA] (List.replicate 266 0) 10).1 = PROTOCOL_SUCCESS) ∧
    ((processResults protocol_init (created_frame [0xAA] (List.replicate 266 0) 10)).count PROTOCOL_SUCCESS = 1 ∧
     protocol_message_ready (some (processBytes protocol_init (created_frame [0xAA] (List.replicate 266 0) 10))) = true ∧
     protocol_get_data_count (some (processBytes protocol_init (created_frame [0xAA] (List.replicate 266 0) 10))) = ([0xAA] : List Nat).length ∧
     handler_data (processBytes protocol_init (created_frame [0xAA] (List.replicate 266 0) 10))
       (processBytes protocol_init (created_frame [0xAA] (List.replicate 266 0) 10)).dados_count = [0xAA]) :=
  ⟨⟨by decide, by decide, by decide, by decide⟩,
   C1_roundtrip [0xAA] (List.replicate 266 0) 10 (by decide) (by decide)
     (by decide) (by decide)⟩

/-- C2 counterexample: for the one-byte payload `[0xAA]` the encode call
succeeds but the size reported back through the `buffer_size` out-parameter
is 6, not `payload.length + 4 = 5`. -/
theorem C2_reported_size_cex :
    (protocol_create_message [0xAA] (List.replicate 266 0) 10).1 = PROTOCOL_SUCCESS ∧
    ¬ (protocol_create_message [0xAA] (List.replicate 266 0) 10).2.2 =
        ([0xAA] : List Nat).length + 4 := by
  decide

/-- C2 (amended): on success the bytes written into the buffer are exactly
the `payload.length + 4` frame bytes `START, LENGTH, PAYLOAD, CHECKSUM, END`
with `CHECKSUM = sum(PAYLOAD) mod 256` — but the size reported back through
the `buffer_size` out-parameter is `(payload.length + 5) % 256`, one more
than the number of bytes written. -/
theorem C2_frame_layout (p buf : List Nat) (bsz : Nat)
    (h1 : p ≠ []) (h2 : p.length ≤ 255)
    (hok : (protocol_create_message p buf bsz).1 = PROTOCOL_SUCCESS) :
    created_frame p buf bsz = [STX_BYTE, p.length] ++ p ++ [p.sum % 256, ETX_BYTE] ∧
    (created_frame p buf bsz).length = p.length + 4 ∧
    (protocol_create_message p buf bsz).2.2 = (p.length + 5) % 256 := by
  have hcf := created_frame_ok p buf bsz h1 hok
  refine ⟨?_, ?_, ?_⟩
  · rw [hcf, protocol_calculate_checksum_eq]
  · rw [hcf]
    simp
  · rw [create_message_ok p buf bsz h1 hok]
    simp [Nat.add_comm]

/-- Witness for the amended C2 at the concrete payload `[0xAA]`. -/
theorem C2_frame_layout_witness :
    (([0xAA] : List Nat) ≠ [] ∧ ([0xAA] : List Nat).length ≤ 255 ∧
     (protocol_create_message [0xAA] (List.replicate 266 0) 10).1 = PROTOCOL_SUCCESS) ∧
    (created_frame [0xAA] (List.replicate 266 0) 10 =
       [STX_BYTE, ([0xAA] : List Nat).length] ++ [0xAA] ++ [([0xAA] : List Nat).sum % 256, ETX_BYTE] ∧
     (created_frame [0xAA] (List.replicate 266 0) 10).length = ([0xAA] : List Nat).length + 4 ∧
     (protocol_create_message [0xAA] (List.replicate 266 0) 10).2.2 =
       (([0xAA] : List Nat).length + 5) % 256) :=
  ⟨⟨by decide, by decide, by decide⟩,
   C2_frame_layout [0xAA] (List.replicate 266 0) 10 (by decide) (by decide) (by decide)⟩

/-- C7 counterexample: one noise byte `0x02` (a stray start marker) followed
by the valid frame for payload `[0x41]` produces zero `Complete` and one
`Rejected` outcome — not one and zero as claimed for arbitrary noise. -/
theorem C7_stray_stx_cex :
    created_frame [0x41] (List.replicate 266 0) 10 = [2, 1, 0x41, 0x41, 3] ∧
    (processResults protocol_init
      ([2] ++ created_frame [0x41] (List.replicate 266 0) 10)).count PROTOCOL_SUCCESS = 0 ∧
    (processResults protocol_init
      ([2] ++ created_frame [0x41] (List.replicate 266 0) 10)).count PROTOCOL_ERROR = 1 := by
  decide

/-- C7 (amended): for every finite sequence of noise bytes NONE OF WHICH is
the start marker `0x02`, followed by the bytes of one valid frame (an
encoder output), feeding the whole stream byte-by-byte into a freshly
initialised parser yields exactly one `Complete` outcome and zero `Rejected`
outcomes. -/
theorem C7_noise_resync (noise p buf : List Nat) (bsz : Nat)
    (hn : ∀ b ∈ noise, b ≠ STX_BYTE)
    (h1 : 1 ≤ p.length) (h2 : p.length ≤ 255)
    (hok : (protocol_create_message p buf bsz).1 = PROTOCOL_SUCCESS) :
    (processResults protocol_init
      (noise ++ created_frame p buf bsz)).count PROTOCOL_SUCCESS = 1 ∧
    (processResults protocol_init
      (noise ++ created_frame p buf bsz)).count PROTOCOL_ERROR = 0 := by
  have hne : p ≠ [] := by
    intro hcon
    rw [hcon] at h1
    simp at h1
  have hframe := created_frame_ok p buf bsz hne hok
  obtain ⟨hkeep, hres⟩ := noise_absorbed noise protocol_init rfl rfl hn
  obtain ⟨_, _, _, _, _, f6⟩ := frame_parse p hne h2 protocol_init rfl
  rw [hframe, processResults_append, hkeep, hres, f6]
  rw [List.count_append, List.count_append, List.count_append,
      count_replicate_int, count_replicate_int]
  constructor
  · norm_num [PROTOCOL_SUCCESS, PROTOCOL_WAITING]
  · norm_num [PROTOCOL_ERROR, PROTOCOL_WAITING, PROTOCOL_SUCCESS, count_replicate_int]

/-- Witness for the amended C7: noise `[0xFF, 0x00]` then the frame for
`[0xAA]`. -/
theorem C7_noise_resync_witness :
    ((∀ b ∈ ([0xFF, 0x00] : List Nat), b ≠ STX_BYTE) ∧
     1 ≤ ([0xAA] : List Nat).length ∧ ([0xAA] : List Nat).length ≤ 255 ∧
     (protocol_create_message [0xAA] (List.replicate 266 0) 10).1 = PROTOCOL_SUCCESS) ∧
    ((processResults protocol_init
       ([0xFF, 0x00] ++ created_frame [0xAA] (List.replicate 266 0) 10)).count PROTOCOL_SUCCESS = 1 ∧
     (processResults protocol_init
       ([0xFF, 0x00] ++ created_frame [0xAA] (List.replicate 266 0) 10)).count PROTOCOL_ERROR = 0) :=
  ⟨⟨by decide, by decide, by decide, by decide⟩,
   C7_noise_resync [0xFF, 0x00] [0xAA] (List.replicate 266 0) 10 (by decide)
     (by decide) (by decide) (by decide)⟩

/-- C8: from a freshly initialised handler, whenever the parser is in
`ST_DATA` the invariant `dados_count < qtd_dados ≤ 255` holds, so the write
`dados[dados_count]` performed by `state_wait_data` stays inside the
256-byte receive buffer. -/
theorem C8_data_write_in_bounds (bs : List Nat) (hb : ∀ b ∈ bs, b < 256)
    (hst : (processBytes protocol_init bs).current_state = ST_DATA) :
    (processBytes protocol_init bs).dados_count <
      (processBytes protocol_init bs).qtd_dados ∧
    (processBytes protocol_init bs).qtd_dados ≤ 255 ∧
    (processBytes protocol_init bs).dados_count < 256 := by
  have hinv0 : parserInv protocol_init := by
    refine ⟨fun _ => rfl, fun hx => ?_, by norm_num [protocol_init]⟩
    simp [protocol_init] at hx
  obtain ⟨_, hdata, hqtd⟩ := parserInv_run bs protocol_init hb hinv0
  have hlt := hdata hst
  exact ⟨hlt, hqtd, by omega⟩

/-- Witness for C8: after `STX` and the length byte 5 the parser is in
`ST_DATA` with the invariant holding. -/
theorem C8_data_write_in_bounds_witness :
    ((∀ b ∈ ([2, 5] : List Nat), b < 256) ∧
     (processBytes protocol_init [2, 5]).current_state = ST_DATA) ∧
    ((processBytes protocol_init [2, 5]).dados_count <
       (processBytes protocol_init [2, 5]).qtd_dados ∧
     (processBytes protocol_init [2, 5]).qtd_dados ≤ 255 ∧
     (processBytes protocol_init [2, 5]).dados_count < 256) :=
  ⟨⟨by decide, by decide⟩,
   C8_data_write_in_bounds [2, 5] (by decide) (by decide)⟩

/-- C10: with a `NULL` handler, `protocol_process_byte` returns
`PROTOCOL_INVALID_PARAM` for every byte and changes nothing, and the three
accessors return `false`, `NULL` and 0 respectively. -/
theorem C10_null_handler :
    ∀ b : Nat,
      protocol_process_byte none b = (PROTOCOL_INVALID_PARAM, none) ∧
      protocol_message_ready none = false ∧
      protocol_get_data none = none ∧
      protocol_get_data_count none = 0 := by
  intro b
  exact ⟨rfl, rfl, rfl, rfl⟩

-- ========================================
-- Claims about the t4 transmitter/receiver
-- ========================================

@[simp] lemma ack_received_channel_send (d : List Nat) (s : Nat) (ch : comm_channel_t) :
    (channel_send d s ch).ack_received = ch.ack_received := by
  by_cases hl : ch.simulate_loss <;> simp [channel_send, hl]

@[simp] lemma ack_value_channel_send (d : List Nat) (s : Nat) (ch : comm_channel_t) :
    (channel_send d s ch).ack_value = ch.ack_value := by
  by_cases hl : ch.simulate_loss <;> simp [channel_send, hl]

@[simp] lemma simulate_loss_channel_send (d : List Nat) (s : Nat) (ch : comm_channel_t) :
    (channel_send d s ch).simulate_loss = ch.simulate_loss := by
  by_cases hl : ch.simulate_loss <;> simp [channel_send, hl]

/-- A freshly armed `TIMEOUT_MS` timer has not yet expired. -/
@[simp] lemma timer_expired_fresh (now : Nat) :
    timer_expired now (timer_set now TIMEOUT_MS) = false := by
  have h0 : (now + 2 ^ 32 - now) % 2 ^ 32 = 0 := by omega
  simp [timer_expired, timer_set, TIMEOUT_MS, h0]

@[simp] lemma timer_set_active (now ms : Nat) : (timer_set now ms).active = true := rfl

lemma rx_ready_channel_send_no_loss (d : List Nat) (s : Nat) (ch : comm_channel_t)
    (hl : ch.simulate_loss = false) :
    (channel_send d s ch).rx_ready = true := by
  simp [channel_send, hl]

/-- C9: a timer that is not armed — never set, or stopped via `timer_stop` —
never reports expiry, whatever the logical clock reads. -/
theorem C9_inactive_timer_never_expires (t : timer_t) (now : Nat)
    (h : t.active = false) :
    timer_expired now t = false ∧
    (∀ m : Nat, timer_expired m (timer_stop t) = false) := by
  constructor
  · simp [timer_expired, h]
  · intro m
    simp [timer_expired, timer_stop]

/-- Witness for C9 at a concrete stopped timer and clock value. -/
theorem C9_inactive_timer_never_expires_witness :
    (({ start_time := 0, timeout_ms := 0, active := false } : timer_t).active = false) ∧
    (timer_expired 123456 { start_time := 0, timeout_ms := 0, active := false } = false ∧
     (∀ m : Nat, timer_expired m
        (timer_stop { start_time := 0, timeout_ms := 0, active := false }) = false)) :=
  ⟨by decide, C9_inactive_timer_never_expires { start_time := 0, timeout_ms := 0, active := false }
     123456 (by decide)⟩

/-- C4 (amended): when a scheduling turn finds BOTH a pending acknowledgment
(even a positive one) AND an expired retry timer, the transmitter takes the
timeout/retry path, not the acknowledgment path: the pending acknowledgment
is consumed and discarded, the retry counter is incremented, and the step
does not reach `Succeeded` (`transmission_complete` with
`PROTOCOL_SUCCESS`). -/
theorem C4_timeout_beats_ack (tx : transmitter_state_t) (ch : comm_channel_t)
    (now ackv : Nat)
    (hlc : tx.lc = TxLC.waitAck)
    (hack : ch.ack_received = true) (hval : ch.ack_value = ACK_BYTE)
    (htim : timer_expired now tx.timer = true)
    (hrc : tx.retry_count < MAX_RETRIES)
    (hcomp : tx.transmission_complete = false) :
    ((transmitter_thread tx ch now ackv).1).retry_count = tx.retry_count + 1 ∧
    ¬(((transmitter_thread tx ch now ackv).1).transmission_complete = true ∧
      ((transmitter_thread tx ch now ackv).1).result = PROTOCOL_SUCCESS) ∧
    ((transmitter_thread tx ch now ackv).2.1).ack_received = false := by
  have hrc3 : tx.retry_count < 3 := by simpa [MAX_RETRIES] using hrc
  have hmod : (tx.retry_count + 1) % 256 = tx.retry_count + 1 :=
    Nat.mod_eq_of_lt (by omega)
  simp only [transmitter_thread, hlc]
  by_cases hlt : tx.retry_count + 1 < 3
  · simp [tx_run, channel_ack_received, hack, htim, hmod, MAX_RETRIES, hlt, hcomp]
  · have heq : ¬ tx.retry_count + 1 < 3 := hlt
    simp [tx_run, channel_ack_received, hack, htim, hmod, MAX_RETRIES, heq, hcomp,
          PROTOCOL_TIMEOUT, PROTOCOL_SUCCESS]

/-- The world after submitting payload `[0xAA]` on a lossless channel, one
scheduling turn (the frame is sent, received, and acknowledged with ACK),
and a 1000 ms clock advance: the ACK is pending AND the retry timer has
expired, both at once. -/
def ack_and_timeout_world : t4_world :=
  advance_time 1000
    (protothreads_schedule (protothreads_send_data [0xAA] protothreads_init).1)

/-- C4 counterexample: in `ack_and_timeout_world` a positive acknowledgment
is pending and the timer has expired; the next scheduling turn increments
the retry counter to 1 and does NOT transition to `Succeeded` — the timeout
path wins, contradicting the claimed acknowledgment precedence. -/
theorem C4_ack_precedence_cex :
    ack_and_timeout_world.channel.ack_received = true ∧
    ack_and_timeout_world.channel.ack_value = ACK_BYTE ∧
    timer_expired ack_and_timeout_world.system_time_ms ack_and_timeout_world.tx.timer = true ∧
    ack_and_timeout_world.tx.transmission_complete = false ∧
    (protothreads_schedule ack_and_timeout_world).tx.retry_count = 1 ∧
    (protothreads_schedule ack_and_timeout_world).tx.transmission_complete = false := by
  decide

/-- Witness for the amended C4, at the reachable state
`ack_and_timeout_world`. -/
theorem C4_timeout_beats_ack_witness :
    (ack_and_timeout_world.tx.lc = TxLC.waitAck ∧
     ack_and_timeout_world.channel.ack_received = true ∧
     ack_and_timeout_world.channel.ack_value = ACK_BYTE ∧
     timer_expired ack_and_timeout_world.system_time_ms ack_and_timeout_world.tx.timer = true ∧
     ack_and_timeout_world.tx.retry_count < MAX_RETRIES ∧
     ack_and_timeout_world.tx.transmission_complete = false) ∧
    (((transmitter_thread ack_and_timeout_world.tx ack_and_timeout_world.channel
        ack_and_timeout_world.system_time_ms ack_and_timeout_world.tx_ack_value).1).retry_count =
        ack_and_timeout_world.tx.retry_count + 1 ∧
     ¬(((transmitter_thread ack_and_timeout_world.tx ack_and_timeout_world.channel
        ack_and_timeout_world.system_time_ms ack_and_timeout_world.tx_ack_value).1).transmission_complete = true ∧
       ((transmitter_thread ack_and_timeout_world.tx ack_and_timeout_world.channel
        ack_and_timeout_world.system_time_ms ack_and_timeout_world.tx_ack_value).1).result = PROTOCOL_SUCCESS) ∧
     ((transmitter_thread ack_and_timeout_world.tx ack_and_timeout_world.channel
        ack_and_timeout_world.system_time_ms ack_and_timeout_world.tx_ack_value).2.1).ack_received = false) :=
  ⟨⟨by decide, by decide, by decide, by decide, by decide, by decide⟩,
   C4_timeout_beats_ack ack_and_timeout_world.tx ack_and_timeout_world.channel
     ack_and_timeout_world.system_time_ms ack_and_timeout_world.tx_ack_value
     (by decide) (by decide) (by decide) (by decide) (by decide) (by decide)⟩

/-- C5 (amended): `PT_EXIT`/`PT_END` reset the protothread continuation to
0, so once the transmitter has completed (`transmission_complete` true,
`lc = 0`), a further scheduling turn is NOT a no-op: it re-enters the thread
from the start, clears `transmission_complete`, resets the retry counter to
0, rebuilds the message (when the build succeeds, i.e. payload length ≤ 5
given the truncated capacity of 10), re-arms the timer, and retransmits the
frame on a lossless channel. -/
theorem C5_completed_thread_restarts (tx : transmitter_state_t)
    (ch : comm_channel_t) (now ackv : Nat)
    (hlc : tx.lc = TxLC.start) (hcomp : tx.transmission_complete = true)
    (hlen1 : 1 ≤ tx.data_to_send.length) (hlen5 : tx.data_to_send.length ≤ 5)
    (hack : ch.ack_received = false) (hloss : ch.simulate_loss = false) :
    ((transmitter_thread tx ch now ackv).1).transmission_complete = false ∧
    ((transmitter_thread tx ch now ackv).1).retry_count = 0 ∧
    ((transmitter_thread tx ch now ackv).1).timer.active = true ∧
    ((transmitter_thread tx ch now ackv).2.1).rx_ready = true ∧
    (transmitter_thread tx ch now ackv).2.2.2 = PT_WAITING := by
  have hne : tx.data_to_send ≠ [] := by
    intro hcon
    rw [hcon] at hlen1
    simp at hlen1
  have hlen0 : ¬ tx.data_to_send.length = 0 := by omega
  have hsz : ((5 : Nat) + tx.data_to_send.length) % 256 = 5 + tx.data_to_send.length :=
    Nat.mod_eq_of_lt (by omega)
  have hok : (protocol_create_message tx.data_to_send tx.message_buffer
      ((MAX_DATA_SIZE + 10) % 256)).1 = PROTOCOL_SUCCESS := by
    have hcond : ¬ ((MAX_DATA_SIZE + 10) % 256 <
        (5 + tx.data_to_send.length) % 256) := by
      rw [hsz]
      simp [MAX_DATA_SIZE]
      omega
    simp [protocol_create_message, hlen0, hcond]
  have hcreate := create_message_ok tx.data_to_send tx.message_buffer
    ((MAX_DATA_SIZE + 10) % 256) hne hok
  simp only [transmitter_thread, hlc]
  rw [hcreate]
  simp [tx_run, MAX_RETRIES, channel_ack_received, hack,
        rx_ready_channel_send_no_loss _ _ _ hloss,
        PROTOCOL_SUCCESS]

/-- Scheduling turns of a lossless `[0xAA]` transmission: after turn 1 the
receiver has acknowledged; after turn 2 the transmitter is `Succeeded`
(complete, `PROTOCOL_SUCCESS`); turn 3 is taken from the completed state. -/
def completed_tx_world : t4_world :=
  protothreads_schedule
    (protothreads_schedule (protothreads_send_data [0xAA] protothreads_init).1)

/-- C5 counterexample: the transmitter reaches the terminal `Succeeded`
state (`transmission_complete`, result `PROTOCOL_SUCCESS`), yet one more
scheduling turn clears `transmission_complete` and retransmits the frame
(the receive side becomes ready again) — the turn is not a no-op. -/
theorem C5_not_noop_cex :
    completed_tx_world.tx.transmission_complete = true ∧
    completed_tx_world.tx.result = PROTOCOL_SUCCESS ∧
    completed_tx_world.tx.lc = TxLC.start ∧
    (protothreads_schedule completed_tx_world).tx.transmission_complete = false ∧
    (protothreads_schedule completed_tx_world).tx.retry_count = 0 ∧
    (protothreads_schedule completed_tx_world).channel.rx_ready = true := by
  decide

/-- Witness for the amended C5, at the reachable completed state
`completed_tx_world`. -/
theorem C5_completed_thread_restarts_witness :
    (completed_tx_world.tx.lc = TxLC.start ∧
     completed_tx_world.tx.transmission_complete = true ∧
     1 ≤ completed_tx_world.tx.data_to_send.length ∧
     completed_tx_world.tx.data_to_send.length ≤ 5 ∧
     completed_tx_world.channel.ack_received = false ∧
     completed_tx_world.channel.simulate_loss = false) ∧
    (((transmitter_thread completed_tx_world.tx completed_tx_world.channel
        completed_tx_world.system_time_ms completed_tx_world.tx_ack_value).1).transmission_complete = false ∧
     ((transmitter_thread completed_tx_world.tx completed_tx_world.channel
        completed_tx_world.system_time_ms completed_tx_world.tx_ack_value).1).retry_count = 0 ∧
     ((transmitter_thread completed_tx_world.tx completed_tx_world.channel
        completed_tx_world.system_time_ms completed_tx_world.tx_ack_value).1).timer.active = true ∧
     ((transmitter_thread completed_tx_world.tx completed_tx_world.channel
        completed_tx_world.system_time_ms completed_tx_world.tx_ack_value).2.1).rx_ready = true ∧
     (transmitter_thread completed_tx_world.tx completed_tx_world.channel
        completed_tx_world.system_time_ms completed_tx_world.tx_ack_value).2.2.2 = PT_WAITING) :=
  ⟨⟨by decide, by decide, by decide, by decide, by decide, by decide⟩,
   C5_completed_thread_restarts completed_tx_world.tx completed_tx_world.channel
     completed_tx_world.system_time_ms completed_tx_world.tx_ack_value
     (by decide) (by decide) (by decide) (by decide) (by decide) (by decide)⟩

/-- C6 (amended): a zero length byte sends the t3 parser silently back to
`AwaitingStart` — result `PROTOCOL_WAITING`, neither `Complete` nor
`Rejected`, `message_ready` untouched — but the t4 receiver coordinator does
NOT stay silent: on reading a zero quantity byte (here the last byte
available) it emits a NACK acknowledgment on the channel and then resumes
waiting for a new start marker. -/
theorem C6_zero_length_handling (h : ProtocolHandler) (rx : receiver_state_t)
    (ch : comm_channel_t)
    (hst : h.current_state = ST_QTD)
    (hlc : rx.lc = RxLC.wqtd)
    (hrdy : ch.rx_ready = true) (hpos : ch.rx_pos < ch.rx_size)
    (hsize : ch.rx_size ≤ 255)
    (hbyte : ch.rx_buffer.getD ch.rx_pos 0 = 0)
    (hlast : ch.rx_pos + 1 = ch.rx_size) :
    (protocol_step h 0).2 = PROTOCOL_WAITING ∧
    (protocol_step h 0).1.current_state = ST_STX ∧
    (protocol_step h 0).1.message_ready = h.message_ready ∧
    ((receiver_thread rx ch).2.1).ack_received = true ∧
    ((receiver_thread rx ch).2.1).ack_value = NACK_BYTE ∧
    (receiver_thread rx ch).2.2 = PT_WAITING := by
  have hmod : (ch.rx_pos + 1) % 256 = ch.rx_pos + 1 :=
    Nat.mod_eq_of_lt (by omega)
  have hge : ch.rx_size ≤ ch.rx_pos + 1 := by omega
  have hbyte2 : ch.rx_buffer[ch.rx_pos]?.getD 0 = 0 := by simpa using hbyte
  refine ⟨?_, ?_, ?_, ?_, ?_, ?_⟩
  · rw [step_qtd_zero h hst]
  · rw [step_qtd_zero h hst]
  · rw [step_qtd_zero h hst]
  all_goals
    simp [receiver_thread, rxResume, hlc, rx_run, channel_receive_byte,
          channel_send_ack, hrdy, hpos, hbyte2, hmod, hge]

/-- The channel after a two-byte transmission `[STX, 0]` — a frame whose
declared length byte is 0. -/
def zero_length_channel : comm_channel_t := channel_send [2, 0] 2 channel_reset

/-- C6 counterexample: feeding the frame header `[0x02, 0x00]` (declared
length 0) to the freshly initialised t4 receiver makes it emit a NACK on the
channel — an acknowledgment IS sent for the zero-length case, contradicting
the claim that none is. -/
theorem C6_zero_length_cex :
    ((receiver_thread protothreads_init.rx zero_length_channel).2.1).ack_received = true ∧
    ((receiver_thread protothreads_init.rx zero_length_channel).2.1).ack_value = NACK_BYTE := by
  decide

/-- Witness for the amended C6 at concrete parser/receiver/channel states. -/
theorem C6_zero_length_handling_witness :
    (({ protocol_init with current_state := ST_QTD } : ProtocolHandler).current_state = ST_QTD ∧
     ({ protothreads_init.rx with lc := RxLC.wqtd } : receiver_state_t).lc = RxLC.wqtd ∧
     ({ zero_length_channel with rx_pos := 1 } : comm_channel_t).rx_ready = true ∧
     ({ zero_length_channel with rx_pos := 1 } : comm_channel_t).rx_pos <
       ({ zero_length_channel with rx_pos := 1 } : comm_channel_t).rx_size ∧
     ({ zero_length_channel with rx_pos := 1 } : comm_channel_t).rx_size ≤ 255 ∧
     ({ zero_length_channel with rx_pos := 1 } : comm_channel_t).rx_buffer.getD
       ({ zero_length_channel with rx_pos := 1 } : comm_channel_t).rx_pos 0 = 0 ∧
     ({ zero_length_channel with rx_pos := 1 } : comm_channel_t).rx_pos + 1 =
       ({ zero_length_channel with rx_pos := 1 } : comm_channel_t).rx_size) ∧
    ((protocol_step { protocol_init with current_state := ST_QTD } 0).2 = PROTOCOL_WAITING ∧
     (protocol_step { protocol_init with current_state := ST_QTD } 0).1.current_state = ST_STX ∧
     (protocol_step { protocol_init with current_state := ST_QTD } 0).1.message_ready =
       ({ protocol_init with current_state := ST_QTD } : ProtocolHandler).message_ready ∧
     ((receiver_thread { protothreads_init.rx with lc := RxLC.wqtd }
        { zero_length_channel with rx_pos := 1 }).2.1).ack_received = true ∧
     ((receiver_thread { protothreads_init.rx with lc := RxLC.wqtd }
        { zero_length_channel with rx_pos := 1 }).2.1).ack_value = NACK_BYTE ∧
     (receiver_thread { protothreads_init.rx with lc := RxLC.wqtd }
        { zero_length_channel with rx_pos := 1 }).2.2 = PT_WAITING) :=
  ⟨⟨by decide, by decide, by decide, by decide, by decide, by decide, by decide⟩,
   C6_zero_length_handling { protocol_init with current_state := ST_QTD }
     { protothreads_init.rx with lc := RxLC.wqtd }
     { zero_length_channel with rx_pos := 1 }
     (by decide) (by decide) (by decide) (by decide) (by decide) (by decide) (by decide)⟩

/-- A submitted 6-byte payload on a channel that drops every transmission
(`simulate_loss`). -/
def dropped_payload6_world : t4_world :=
  { ((protothreads_send_data [1, 1, 1, 1, 1, 1] protothreads_init).1) with
     channel := { ((protothreads_send_data [1, 1, 1, 1, 1, 1] protothreads_init).1).channel with
                   simulate_loss := true } }

/-- C3 failing input: the transmitter passes
`tx->message_size = (uint8_t)sizeof(tx->message_buffer) = 266 % 256 = 10` as
the buffer capacity, so for the 6-byte payload `[1,1,1,1,1,1]` the frame
build needs 11 > 10 and `protocol_create_message` fails; the thread exits at
once with result `PROTOCOL_ERROR`, zero retries, and
`transmission_complete` never set — even after ten 1000 ms scheduling
turns, instead of the claimed 3 retries ending in `Failed`/`Timeout`. -/
theorem C3_truncated_capacity_bug :
    (protothreads_send_data [1, 1, 1, 1, 1, 1] protothreads_init).2 = PROTOCOL_SUCCESS ∧
    (sched_turns 1000 10 dropped_payload6_world).tx.transmission_complete = false ∧
    (sched_turns 1000 10 dropped_payload6_world).tx.result = PROTOCOL_ERROR ∧
    (sched_turns 1000 10 dropped_payload6_world).tx.retry_count = 0 := by
  decide

/-- A submitted 2-byte payload on a channel that drops every transmission. -/
def dropped_payload2_world : t4_world :=
  { ((protothreads_send_data [0x12, 0x34] protothreads_init).1) with
     channel := { ((protothreads_send_data [0x12, 0x34] protothreads_init).1).channel with
                   simulate_loss := true } }

/-- For a payload short enough that the frame build succeeds, the retry law
of the claim does hold: with every transmission dropped, the transmitter
counts retries 1, 2, 3 across the timeout turns and then terminates with
`transmission_complete` and `PROTOCOL_TIMEOUT`. -/
theorem tx_retries_then_timeout_for_short_payload :
    (sched_turns 1000 3 dropped_payload2_world).tx.retry_count = 2 ∧
    (sched_turns 1000 3 dropped_payload2_world).tx.transmission_complete = false ∧
    (sched_turns 1000 4 dropped_payload2_world).tx.transmission_complete = true ∧
    (sched_turns 1000 4 dropped_payload2_world).tx.result = PROTOCOL_TIMEOUT ∧
    (sched_turns 1000 4 dropped_payload2_world).tx.retry_count = 3 := by
  decide
